import Mathlib

/-!
Shallow embedding of the babelpod rewind-and-translate subsystem.

The definitions below are translated from the repository's JavaScript
sources:

* `src/services/translationService.js` — segment calculator
  (`extractAudioSegment`), speech synthesis (`speakText`), transcription
  selector (`transcribeAudioSegment`), and source-language resolution
  inside `translateAudioSegment`.
* `src/services/transcription/browserTranscription.js` — browser
  speech-recognition capture: result accumulation, `onend` / `onerror`
  handlers, and `getFullLanguageCode`.
* `src/services/transcription/selfHostedWhisperTranscription.js` —
  self-hosted Whisper capture: `whisperLanguageToISO` and the response /
  error handling of `transcribeWithSelfHostedWhisper`.
* `src/services/transcription/whisperTranscription.js` — OpenAI Whisper
  capture: the response / error handling of `transcribeWithWhisper`.
* `src/components/AudioPlayer.jsx` — the `rewindAndTranslate`
  orchestration.

JavaScript string primitives (`trim`, `toLowerCase`, `split`, `includes`,
one-trailing-slash `replace`) are embedded as executable functions over
`String.data` so that the kernel can evaluate them on concrete inputs.
Asynchronous collaborators (capture strategies, the translation HTTP call,
speech synthesis) are modelled as explicit outcome values or state
transformers supplied as parameters, and thrown JavaScript errors are
modelled with `Except String`.
-/

/-! ## JavaScript string primitives -/

/-- Embedding of JavaScript `String.prototype.trim`: strip whitespace from
both ends of the string. -/
def jsTrim (s : String) : String :=
  ⟨((s.data.dropWhile Char.isWhitespace).reverse.dropWhile Char.isWhitespace).reverse⟩

/-- Embedding of JavaScript `String.prototype.toLowerCase` (ASCII case). -/
def jsToLower (s : String) : String :=
  ⟨s.data.map Char.toLower⟩

/-- Embedding of JavaScript `s.split(sep)[0]`: everything before the first
occurrence of the separator character. -/
def jsSplitFirst (s : String) (sep : Char) : String :=
  ⟨s.data.takeWhile (fun c => c ≠ sep)⟩

/-- Embedding of JavaScript `String.prototype.includes`. -/
def jsIncludes (s sub : String) : Bool :=
  decide (sub.data <:+: s.data)

/-- Embedding of `apiUrl.replace(/\/$/, '')` from
`selfHostedWhisperTranscription.js`: drop a single trailing slash. -/
def stripTrailingSlash (s : String) : String :=
  if s.data.getLast? = some '/' then ⟨s.data.dropLast⟩ else s

/-- JavaScript truthiness of an optional string field: `undefined` and the
empty string are falsy. -/
def jsTruthyOpt : Option String → Bool
  | none => false
  | some s => decide (s ≠ "")

/-- Whether an `Except` value is a success (`Promise` resolved rather than
rejected). -/
def exceptIsOk {ε α : Type} : Except ε α → Bool
  | .ok _ => true
  | .error _ => false

/-! ## Data model -/

/-- Result of one capture strategy: transcribed text plus a
detected/declared language code (`{text, language}` objects returned by the
transcription modules). -/
structure TranscriptionResult where
  text : String
  language : String
deriving DecidableEq

/-- The playback window computed by `extractAudioSegment`
(`translationService.js`, lines 8–17). -/
structure AudioSegment where
  startTime : ℚ
  endTime : ℚ
  duration : ℚ
deriving DecidableEq

/-- Observable state of the user-visible audio element: current playback
position and paused flag. -/
structure AudioState where
  currentTime : ℚ
  paused : Bool
deriving DecidableEq

/-- User settings consumed by the transcription selector
(`translationService.js`, lines 77–120).  JavaScript `undefined` fields are
modelled as the empty string, matching the code's falsiness checks. -/
structure Settings where
  transcriptionMethod : String := ""
  whisperApiKey : String := ""
  selfHostedWhisperUrl : String := ""
deriving DecidableEq

/-! ## Segment calculator (`translationService.js`, lines 8–17) -/

/-- `extractAudioSegment(audioElement, durationSeconds)`:
`startTime = Math.max(0, currentTime - durationSeconds)`,
`endTime = currentTime`, `duration = currentTime - startTime`. -/
def extractAudioSegment (currentTime : ℚ) (durationSeconds : ℚ) : AudioSegment :=
  let startTime := max 0 (currentTime - durationSeconds)
  { startTime := startTime, endTime := currentTime, duration := currentTime - startTime }

/-! ## Speech synthesis (`translationService.js`, lines 40–66) -/

/-- Commands `speakText` issues against `window.speechSynthesis`. -/
inductive SpeechCmd
  | cancel
  | speak (text : String) (lang : String)
deriving DecidableEq

/-- The sequence of speech-synthesis commands issued by
`speakText(text, lang)`: when synthesis is supported it first runs
`window.speechSynthesis.cancel()` and then `speak(utterance)`; when
unsupported it rejects without issuing any command. -/
def speakTextCommands (supported : Bool) (text lang : String) : List SpeechCmd :=
  if supported then [SpeechCmd.cancel, SpeechCmd.speak text lang] else []

/-- Effect of one speech-synthesis command on the queue of in-flight
utterances: `cancel` removes every queued utterance, `speak` enqueues the
new utterance text. -/
def synthStep (queue : List String) : SpeechCmd → List String
  | .cancel => []
  | .speak t _ => queue ++ [t]

/-! ## Browser speech-recognition capture
(`browserTranscription.js`, current revision lines 150–300) -/

/-- Accumulation performed by the `recognition.onresult` handler: each
recognition result is a pair of its `isFinal` flag and its transcript, and
only final results are appended, each followed by a single space
(`transcript += event.results[i][0].transcript + ' '`). -/
def accumulateFinalResults (results : List (Bool × String)) : String :=
  results.foldl (fun transcript r => if r.1 then transcript ++ r.2 ++ " " else transcript) ""

/-- The `recognition.onend` handler (current revision, lines 220–232):
resolve with the trimmed transcript and the short language code
(`language.split('-')[0]`) when the trimmed transcript is non-empty,
otherwise reject with the no-speech error. -/
def browserOnEnd (transcript language : String) : Except String TranscriptionResult :=
  if jsTrim transcript ≠ "" then
    .ok { text := jsTrim transcript, language := jsSplitFirst language '-' }
  else
    .error "No speech detected in the audio segment"

/-- The `recognition.onerror` handler of the current revision
(lines 206–218): it cleans up and rejects on every error event; the
accumulated transcript is not consulted. -/
def browserOnError (transcript errorCode : String) : Except String TranscriptionResult :=
  if errorCode = "no-speech" then
    .error "Browser speech recognition couldn\x27t detect speech. This method works best with microphone input and may not work reliably with podcast audio. For better results, use Self-Hosted Whisper (free, accurate) or OpenAI Whisper API in Settings."
  else if errorCode = "aborted" then
    .error "Speech recognition was aborted"
  else
    .error ("Speech recognition failed: " ++ errorCode)

/-- The `recognition.onerror` handler of the earlier revision of
`browserTranscription.js` (lines 57–72): errors other than `no-speech` and
`aborted` are fatal; for `no-speech`/`aborted` it resolves with the trimmed
transcript when non-empty and rejects only when the transcript is empty. -/
def browserOnErrorLegacy (transcript errorCode : String) : Except String String :=
  if errorCode ≠ "no-speech" ∧ errorCode ≠ "aborted" then
    .error ("Speech recognition failed: " ++ errorCode)
  else if jsTrim transcript ≠ "" then
    .ok (jsTrim transcript)
  else
    .error "No speech detected in the audio segment"

/-- `getFullLanguageCode` (`browserTranscription.js`, lines 287–300): the
fixed nine-entry `languageMap` object lookup with `'en-US'` fallback. -/
def getFullLanguageCode (lang : String) : String :=
  match lang with
  | "es" => "es-ES"
  | "en" => "en-US"
  | "fr" => "fr-FR"
  | "de" => "de-DE"
  | "it" => "it-IT"
  | "pt" => "pt-PT"
  | "ja" => "ja-JP"
  | "zh" => "zh-CN"
  | "ko" => "ko-KR"
  | _ => "en-US"

/-! ## Self-hosted Whisper capture (`src/unnamed/part_008`) -/

/-- The fixed `languageMap` of `whisperLanguageToISO`
(`part_008`, lines 9–55). -/
def whisperLanguageMap : List (String × String) :=
  [("english", "en"), ("spanish", "es"), ("french", "fr"), ("german", "de"),
   ("italian", "it"), ("portuguese", "pt"), ("dutch", "nl"), ("russian", "ru"),
   ("chinese", "zh"), ("japanese", "ja"), ("korean", "ko"), ("arabic", "ar"),
   ("turkish", "tr"), ("polish", "pl"), ("danish", "da"), ("swedish", "sv"),
   ("norwegian", "no"), ("finnish", "fi"), ("greek", "el"), ("czech", "cs"),
   ("hungarian", "hu"), ("romanian", "ro"), ("bulgarian", "bg"),
   ("ukrainian", "uk"), ("croatian", "hr"), ("serbian", "sr"),
   ("slovak", "sk"), ("slovenian", "sl"), ("lithuanian", "lt"),
   ("latvian", "lv"), ("estonian", "et"), ("thai", "th"),
   ("vietnamese", "vi"), ("indonesian", "id"), ("malay", "ms"),
   ("hindi", "hi"), ("bengali", "bn"), ("tamil", "ta"), ("telugu", "te"),
   ("hebrew", "he"), ("persian", "fa"), ("urdu", "ur"), ("catalan", "ca"),
   ("basque", "eu"), ("galician", "gl")]

/-- `whisperLanguageToISO(languageName)` (`part_008`, lines 8–68): look the
lowercased, trimmed name up in the fixed map; a hit returns the ISO 639-1
code, a miss returns the name unchanged (warning only), and a falsy name
yields `'auto'`. -/
def whisperLanguageToISO (languageName : String) : String :=
  let normalizedName := jsTrim (jsToLower languageName)
  match List.lookup normalizedName whisperLanguageMap with
  | some isoCode => isoCode
  | none => if languageName = "" then "auto" else languageName

/-- Payload of a self-hosted Whisper HTTP response: a parsed JSON body with
optional `text` and `language` fields (content type `application/json`), or
a plain-text body. -/
inductive WhisperPayload
  | jsonPayload (text : Option String) (language : Option String)
  | textPayload (body : String)
deriving DecidableEq

/-- Outcome of the `fetch` to the self-hosted Whisper endpoint: either the
promise rejected with an error message (network failures reject with
`'Failed to fetch'`), or a response arrived with the given `ok`/status
information.  `errorText` is what `response.text()` yields on the non-2xx
path. -/
inductive FetchOutcome
  | fetchRejected (message : String)
  | response (ok : Bool) (status : Nat) (statusText : String)
      (errorText : String) (payload : WhisperPayload)
deriving DecidableEq

/-- `transcribeWithSelfHostedWhisper` (`part_008`, lines 233–322), given the
recorded audio's upload outcome: the missing-URL guard runs before the
`try`; inside the `try`, a non-2xx response throws a remote error carrying
`errorText` when non-empty (else the HTTP status), a JSON body maps its
language via `whisperLanguageToISO` (falling back to the hint or `'auto'`),
a plain-text body falls back to the hint or `'auto'`, and an empty or
whitespace-only transcript throws the no-speech error; the `catch` turns
messages containing `'Failed to fetch'` into the cannot-connect error and
wraps every other failure. -/
def transcribeWithSelfHostedWhisper (language apiUrl : String)
    (outcome : FetchOutcome) : Except String TranscriptionResult :=
  if apiUrl = "" then
    .error "Self-hosted Whisper API URL is required. Please configure it in Settings."
  else
    let baseUrl := stripTrailingSlash apiUrl
    let attempt : Except String TranscriptionResult :=
      match outcome with
      | .fetchRejected message => .error message
      | .response ok status statusText errorText payload =>
        if !ok then
          let errorMessage :=
            if errorText ≠ "" then errorText
            else "HTTP " ++ toString status ++ ": " ++ statusText
          .error ("Self-hosted Whisper API error: " ++ errorMessage)
        else
          let text :=
            match payload with
            | .jsonPayload t _ => t.getD ""
            | .textPayload body => body
          let detectedLanguage :=
            match payload with
            | .jsonPayload _ l =>
              if jsTruthyOpt l then whisperLanguageToISO (l.getD "")
              else if language = "" then "auto" else language
            | .textPayload _ =>
              if language ≠ "" ∧ language ≠ "auto" then language else "auto"
          if text = "" ∨ jsTrim text = "" then
            .error "No speech detected in the audio segment"
          else
            .ok { text := jsTrim text, language := detectedLanguage }
    match attempt with
    | .ok r => .ok r
    | .error message =>
      if jsIncludes message "Failed to fetch" then
        .error ("Cannot connect to self-hosted Whisper API at " ++ baseUrl ++
          ". Make sure the service is running and accessible.")
      else
        .error ("Self-hosted Whisper transcription failed: " ++ message)

/-! ## OpenAI Whisper capture
(`whisperTranscription.js`, current revision lines 185–236) -/

/-- Outcome of the `fetch` to the OpenAI transcription endpoint:
`errorMessage` models `errorData.error?.message` of a non-2xx JSON body,
and `text`/`language` the fields of the `verbose_json` success body. -/
inductive WhisperApiOutcome
  | fetchRejected (message : String)
  | response (ok : Bool) (status : Nat) (statusText : String)
      (errorMessage : Option String) (text : Option String)
      (language : Option String)
deriving DecidableEq

/-- `transcribeWithWhisper` (`whisperTranscription.js`, lines 185–236): the
missing-key guard runs before the `try`; a non-2xx response throws a
Whisper-API error carrying the server message when available, an empty or
whitespace-only `result.text` throws the no-speech error, and a success
returns the trimmed text with `result.language || language || 'auto'`; the
`catch` wraps every failure. -/
def transcribeWithWhisper (language apiKey : String)
    (outcome : WhisperApiOutcome) : Except String TranscriptionResult :=
  if apiKey = "" then
    .error "OpenAI API key is required. Please add your API key in Settings."
  else
    let attempt : Except String TranscriptionResult :=
      match outcome with
      | .fetchRejected message => .error message
      | .response ok status statusText errMsg text rlang =>
        if !ok then
          let errorMessage :=
            if jsTruthyOpt errMsg then errMsg.getD ""
            else "HTTP " ++ toString status ++ ": " ++ statusText
          .error ("Whisper API error: " ++ errorMessage)
        else
          let t := text.getD ""
          if t = "" ∨ jsTrim t = "" then
            .error "No speech detected in the audio segment"
          else
            .ok { text := jsTrim t,
                  language :=
                    if jsTruthyOpt rlang then rlang.getD ""
                    else if language ≠ "" then language else "auto" }
    match attempt with
    | .ok r => .ok r
    | .error message => .error ("Whisper transcription failed: " ++ message)

/-! ## Transcription selector (`translationService.js`, lines 77–120) -/

/-- The capture invocation the selector resolves to, with the arguments the
selected strategy is invoked with. -/
inductive CaptureInvocation
  | browser (recognitionLang : String)
  | whisper (lang : String) (apiKey : String)
  | selfhosted (lang : String) (apiUrl : String)
deriving DecidableEq

/-- The `if`/`else if` dispatch of `transcribeAudioSegment` on the already
defaulted method string: each known method validates its required
configuration before resolving to its capture invocation; the browser
branch expands the source language via `getFullLanguageCode`; an unknown
method throws. -/
def selectByMethod (method : String) (browserSupported : Bool)
    (sourceLang : String) (settings : Settings) : Except String CaptureInvocation :=
  if method = "browser" then
    if !browserSupported then
      .error "Browser speech recognition not supported. Please use Chrome/Edge or switch to Whisper API in Settings."
    else
      .ok (.browser (getFullLanguageCode sourceLang))
  else if method = "whisper" then
    if settings.whisperApiKey = "" then
      .error "OpenAI API key required. Please add your key in Settings."
    else
      .ok (.whisper sourceLang settings.whisperApiKey)
  else if method = "selfhosted" then
    if settings.selfHostedWhisperUrl = "" then
      .error "Self-hosted Whisper API URL required. Please configure it in Settings."
    else
      .ok (.selfhosted sourceLang settings.selfHostedWhisperUrl)
  else
    .error ("Unknown transcription method: " ++ method)

/-- The selector including the defaulting
`const method = settings.transcriptionMethod || 'browser'`. -/
def selectTranscription (browserSupported : Bool) (sourceLang : String)
    (settings : Settings) : Except String CaptureInvocation :=
  selectByMethod
    (if settings.transcriptionMethod = "" then "browser" else settings.transcriptionMethod)
    browserSupported sourceLang settings

/-- `transcribeAudioSegment`: resolve the capture invocation, then run the
selected capture strategy (supplied here as an oracle from invocations to
their outcomes); selector failures propagate without invoking capture. -/
def transcribeAudioSegment (browserSupported : Bool) (sourceLang : String)
    (settings : Settings)
    (capture : CaptureInvocation → Except String TranscriptionResult) :
    Except String TranscriptionResult :=
  (selectTranscription browserSupported sourceLang settings).bind capture

/-! ## Source-language resolution (`translationService.js`, lines 155–168) -/

/-- The effective source language passed to `translateText`: start from the
transcription result's language; when it is `'auto'`, use the
caller-supplied `sourceLang` unless that is also `'auto'`, in which case
default to `'es'`. -/
def resolveDetectedSourceLang (detectedLang sourceLang : String) : String :=
  if detectedLang = "auto" then
    if sourceLang ≠ "auto" then sourceLang else "es"
  else
    detectedLang

/-! ## Rewind-and-translate orchestration (`AudioPlayer.jsx`, lines 98–192) -/

/-- `rewindAndTranslate`: snapshot `wasPlaying`, force-pause, run the
transcribe-and-translate pipeline (modelled as a state transformer on the
audio element that may reject), on success seek to the captured segment's
`startTime`, speak the translation, and resume playback only if it was
playing at entry; the `catch` block only reports the error message — it
performs no seek, pause, or resume. -/
def rewindAndTranslate
    (pipeline : AudioState → AudioState × Except String Unit)
    (speakResult : Except String Unit)
    (rewindSeconds : ℚ) (s0 : AudioState) : AudioState :=
  let wasPlaying := !s0.paused
  let s1 : AudioState := { s0 with paused := true }
  let segment := extractAudioSegment s1.currentTime rewindSeconds
  match pipeline s1 with
  | (s2, .error _) => s2
  | (s2, .ok _) =>
    let s3 : AudioState := { s2 with currentTime := segment.startTime }
    match speakResult with
    | .error _ => s3
    | .ok _ => if wasPlaying then { s3 with paused := false } else s3

/-! ## Helper lemmas -/

/-- Association-list lookup misses every key outside the key set. -/
theorem lookup_eq_none_of_not_mem_keys {β : Type} (l : List (String × β)) (a : String)
    (h : a ∉ l.map Prod.fst) : List.lookup a l = none := by
  induction l with
  | nil => rfl
  | cons p l ih =>
    obtain ⟨k, v⟩ := p
    simp only [List.map_cons, List.mem_cons, not_or] at h
    have hne : (a == k) = false := beq_eq_false_iff_ne.mpr h.1
    simp [List.lookup, hne, ih h.2]

/-- Folding the accumulation step over only the final results gives the
same buffer: non-final results never modify the transcript. -/
theorem foldl_accumulate_filter (results : List (Bool × String)) (init : String) :
    results.foldl (fun transcript r => if r.1 then transcript ++ r.2 ++ " " else transcript) init =
      (results.filter (fun r => r.1)).foldl
        (fun transcript r => if r.1 then transcript ++ r.2 ++ " " else transcript) init := by
  induction results generalizing init with
  | nil => rfl
  | cons r rs ih =>
    obtain ⟨b, s⟩ := r
    cases b with
    | true => simpa [List.filter] using ih (init ++ s ++ " ")
    | false => simpa [List.filter] using ih init

/-! ## Claim C8 — segment calculator -/

/-- C8: for every current position `p ≥ 0` and rewind window `w > 0`, the
segment calculator returns `startTime = max(0, p - w)`, `endTime = p`, and
`duration = endTime - startTime`; it is total (never throws), and positions
smaller than the window clamp `startTime` to `0`. -/
theorem extractAudioSegment_window (p w : ℚ) (hp : 0 ≤ p) (hw : 0 < w) :
    (extractAudioSegment p w).startTime = max 0 (p - w) ∧
    (extractAudioSegment p w).endTime = p ∧
    (extractAudioSegment p w).duration =
      (extractAudioSegment p w).endTime - (extractAudioSegment p w).startTime ∧
    0 ≤ (extractAudioSegment p w).startTime ∧
    (p < w → (extractAudioSegment p w).startTime = 0) := by
  refine ⟨rfl, rfl, rfl, le_max_left 0 (p - w), fun hlt => ?_⟩
  have : p - w ≤ 0 := by linarith
  simpa [extractAudioSegment] using max_eq_left this

/-- Witness for C8 at `p = 3`, `w = 15`: the short position is clamped to a
zero start rather than an error. -/
theorem extractAudioSegment_window_witness :
    (0 : ℚ) ≤ 3 ∧ (0 : ℚ) < 15 ∧ (extractAudioSegment 3 15).startTime = 0 ∧
      (extractAudioSegment 3 15).endTime = 3 := by
  refine ⟨by norm_num, by norm_num, ?_, ?_⟩
  · exact (extractAudioSegment_window 3 15 (by norm_num) (by norm_num)).2.2.2.2 (by norm_num)
  · exact (extractAudioSegment_window 3 15 (by norm_num) (by norm_num)).2.1

/-! ## Claim C10 — browser language-code expansion fallback -/

/-- C10: every language code outside the nine mapped codes expands to
`'en-US'`, and consequently the selector hands the browser capture strategy
`'en-US'` as the recognition language whenever the source language is
unsupported or `'auto'`. -/
theorem getFullLanguageCode_default (lang : String)
    (h : lang ∉ (["es", "en", "fr", "de", "it", "pt", "ja", "zh", "ko"] : List String)) :
    getFullLanguageCode lang = "en-US" ∧
    (∀ settings : Settings, settings.transcriptionMethod = "browser" →
      selectTranscription true lang settings = .ok (.browser "en-US")) := by
  simp only [List.mem_cons, List.not_mem_nil, or_false, not_or] at h
  obtain ⟨h1, h2, h3, h4, h5, h6, h7, h8, h9⟩ := h
  have hcode : getFullLanguageCode lang = "en-US" := by
    unfold getFullLanguageCode
    split <;> simp_all
  refine ⟨hcode, fun settings hm => ?_⟩
  have hbm : settings.transcriptionMethod ≠ "" := by simp [hm]
  simp [selectTranscription, selectByMethod, hm, hbm, hcode]

/-- Witness for C10 at the `'auto'` source language. -/
theorem getFullLanguageCode_default_witness :
    getFullLanguageCode "auto" = "en-US" ∧
      selectTranscription true "auto" { transcriptionMethod := "browser" } =
        .ok (.browser "en-US") := by
  refine ⟨(getFullLanguageCode_default "auto" (by decide)).1, ?_⟩
  exact (getFullLanguageCode_default "auto" (by decide)).2
    { transcriptionMethod := "browser" } rfl

/-! ## Claim C2 — single in-flight utterance -/

/-- C2: `speakText` issues `speechSynthesis.cancel()` before
`speechSynthesis.speak(...)`, so running its command sequence from any
queue of in-flight utterances empties the queue before the new utterance
starts and leaves exactly the new utterance in flight: at no intermediate
point are two utterances in flight. -/
theorem speakText_cancels_before_speaking (inflight : List String) (text lang : String) :
    speakTextCommands true text lang = [SpeechCmd.cancel, SpeechCmd.speak text lang] ∧
    List.scanl synthStep inflight (speakTextCommands true text lang) =
      [inflight, [], [text]] ∧
    (∀ q ∈ (List.scanl synthStep inflight (speakTextCommands true text lang)).tail,
      q.length ≤ 1) := by
  refine ⟨rfl, rfl, ?_⟩
  intro q hq
  have h2 : List.scanl synthStep inflight (speakTextCommands true text lang) =
      [inflight, [], [text]] := rfl
  rw [h2] at hq
  simp only [List.tail_cons, List.mem_cons, List.not_mem_nil, or_false] at hq
  rcases hq with rfl | rfl <;> simp

/-! ## Claim C7 — effective source language for translation -/

/-- C7: the source language handed to the translation collaborator is never
`'auto'` and never empty (given non-empty inputs): a detected `'auto'` is
replaced by the caller-supplied language when that is not `'auto'`, and by
the fixed default `'es'` when both are `'auto'`. -/
theorem resolveDetectedSourceLang_never_auto (detectedLang sourceLang : String)
    (hd : detectedLang ≠ "") (hs : sourceLang ≠ "") :
    resolveDetectedSourceLang detectedLang sourceLang ≠ "auto" ∧
    resolveDetectedSourceLang detectedLang sourceLang ≠ "" ∧
    (detectedLang = "auto" → sourceLang ≠ "auto" →
      resolveDetectedSourceLang detectedLang sourceLang = sourceLang) ∧
    (detectedLang = "auto" → sourceLang = "auto" →
      resolveDetectedSourceLang detectedLang sourceLang = "es") := by
  unfold resolveDetectedSourceLang
  split_ifs with h1 h2 <;> simp_all

/-- Witness for C7: a detected `'auto'` with caller hint `'fr'` resolves to
`'fr'`. -/
theorem resolveDetectedSourceLang_never_auto_witness :
    resolveDetectedSourceLang "auto" "fr" ≠ "auto" ∧
      resolveDetectedSourceLang "auto" "fr" = "fr" := by
  refine ⟨(resolveDetectedSourceLang_never_auto "auto" "fr" (by decide) (by decide)).1, ?_⟩
  exact (resolveDetectedSourceLang_never_auto "auto" "fr" (by decide) (by decide)).2.2.1
    rfl (by decide)

/-! ## Claim C3 — transcription selector -/

/-- C3: the selector resolves a settings object to exactly one capture
strategy; an unknown method fails with the unknown-method error, and a
known method with missing required configuration (platform capability for
browser, API key for Whisper, endpoint URL for self-hosted) fails with its
configuration error for every possible capture outcome, i.e. before
invoking capture. -/
theorem transcribeAudioSegment_selector
    (browserSupported : Bool) (sourceLang : String) (settings : Settings) (method : String)
    (hm : method =
      if settings.transcriptionMethod = "" then "browser" else settings.transcriptionMethod) :
    selectTranscription browserSupported sourceLang settings =
      selectByMethod method browserSupported sourceLang settings ∧
    (method ∉ (["browser", "whisper", "selfhosted"] : List String) →
      ∀ capture, transcribeAudioSegment browserSupported sourceLang settings capture =
        .error ("Unknown transcription method: " ++ method)) ∧
    (method = "browser" → browserSupported = false →
      ∀ capture, transcribeAudioSegment browserSupported sourceLang settings capture =
        .error "Browser speech recognition not supported. Please use Chrome/Edge or switch to Whisper API in Settings.") ∧
    (method = "whisper" → settings.whisperApiKey = "" →
      ∀ capture, transcribeAudioSegment browserSupported sourceLang settings capture =
        .error "OpenAI API key required. Please add your key in Settings.") ∧
    (method = "selfhosted" → settings.selfHostedWhisperUrl = "" →
      ∀ capture, transcribeAudioSegment browserSupported sourceLang settings capture =
        .error "Self-hosted Whisper API URL required. Please configure it in Settings.") ∧
    (method = "browser" → browserSupported = true →
      selectTranscription browserSupported sourceLang settings =
        .ok (.browser (getFullLanguageCode sourceLang))) ∧
    (method = "whisper" → settings.whisperApiKey ≠ "" →
      selectTranscription browserSupported sourceLang settings =
        .ok (.whisper sourceLang settings.whisperApiKey)) ∧
    (method = "selfhosted" → settings.selfHostedWhisperUrl ≠ "" →
      selectTranscription browserSupported sourceLang settings =
        .ok (.selfhosted sourceLang settings.selfHostedWhisperUrl)) := by
  have hsel : selectTranscription browserSupported sourceLang settings =
      selectByMethod method browserSupported sourceLang settings := by
    rw [selectTranscription, ← hm]
  refine ⟨hsel, ?_, ?_, ?_, ?_, ?_, ?_, ?_⟩
  · intro h capture
    simp only [List.mem_cons, List.not_mem_nil, or_false, not_or] at h
    obtain ⟨h1, h2, h3⟩ := h
    simp [transcribeAudioSegment, hsel, selectByMethod, h1, h2, h3, Except.bind]
  · intro h1 h2 capture
    subst h1; subst h2
    simp [transcribeAudioSegment, hsel, selectByMethod, Except.bind]
  · intro h1 h2 capture
    subst h1
    simp [transcribeAudioSegment, hsel, selectByMethod, h2, Except.bind]
  · intro h1 h2 capture
    subst h1
    simp [transcribeAudioSegment, hsel, selectByMethod, h2, Except.bind]
  · intro h1 h2
    subst h1; subst h2
    simp [hsel, selectByMethod]
  · intro h1 h2
    subst h1
    simp [hsel, selectByMethod, h2]
  · intro h1 h2
    subst h1
    simp [hsel, selectByMethod, h2]

/-- Witness for C3: with method `'whisper'` and an empty API key, the
selector fails with the configuration error for a concrete capture oracle,
and with method `'selfhosted'` and a URL configured it resolves to the
self-hosted strategy. -/
theorem transcribeAudioSegment_selector_witness :
    transcribeAudioSegment true "es" { transcriptionMethod := "whisper" }
        (fun _ => .ok { text := "x", language := "es" }) =
      .error "OpenAI API key required. Please add your key in Settings." ∧
    selectTranscription true "es"
        { transcriptionMethod := "selfhosted", selfHostedWhisperUrl := "http://localhost:9001" } =
      .ok (.selfhosted "es" "http://localhost:9001") := by
  constructor
  · exact (transcribeAudioSegment_selector true "es" { transcriptionMethod := "whisper" }
      "whisper" rfl).2.2.2.1 rfl rfl (fun _ => .ok { text := "x", language := "es" })
  · exact (transcribeAudioSegment_selector true "es"
      { transcriptionMethod := "selfhosted", selfHostedWhisperUrl := "http://localhost:9001" }
      "selfhosted" rfl).2.2.2.2.2.2.2 rfl (by decide)

/-! ## Claim C9 — browser transcript accumulation (corrected) -/

/-- C9 counterexample: with finalized fragments that already carry their
own trailing spaces, `["Hola ", "mundo "]`, the accumulated-and-trimmed
result is `"Hola  mundo"` (the appended join space doubles the internal
space), not `"Hola mundo"` as claimed. -/
theorem accumulateFinalResults_spaced_fragments :
    browserOnEnd (accumulateFinalResults [(true, "Hola "), (true, "mundo ")]) "es-ES" =
      .ok { text := "Hola  mundo", language := "es" } ∧
    ("Hola  mundo" : String) ≠ "Hola mundo" := by
  exact ⟨rfl, by decide⟩

/-- C9 amended: the buffer accumulates only finalized fragments (non-final
results never change it), appending one space after each fragment, and the
result is trimmed: fragments `["Hola", "mundo"]` (with an interim result
discarded) yield `"Hola mundo"` with no trailing space, while fragments
carrying their own trailing spaces, `["Hola ", "mundo "]`, yield
`"Hola  mundo"`. -/
theorem browser_transcript_accumulation (results : List (Bool × String)) :
    accumulateFinalResults results =
      accumulateFinalResults (results.filter (fun r => r.1)) ∧
    browserOnEnd
        (accumulateFinalResults [(true, "Hola"), (false, "interim"), (true, "mundo")])
        "es-ES" = .ok { text := "Hola mundo", language := "es" } ∧
    ("Hola mundo" : String).data.getLast? ≠ some ' ' ∧
    browserOnEnd (accumulateFinalResults [(true, "Hola "), (true, "mundo ")]) "es-ES" =
      .ok { text := "Hola  mundo", language := "es" } := by
  refine ⟨?_, rfl, by decide, rfl⟩
  exact foldl_accumulate_filter results ""

/-! ## Claim C6 — no-speech handling in browser capture (corrected) -/

/-- C6 counterexample: in the current `onerror` handler a `no-speech`
recognition error rejects even though the accumulated transcript
`"Hola mundo "` is non-empty. -/
theorem browserOnError_noSpeech_rejects_nonempty :
    exceptIsOk (browserOnError "Hola mundo " "no-speech") = false ∧
    jsTrim "Hola mundo " ≠ "" := by
  exact ⟨rfl, by decide⟩

/-- C6 amended: in the current revision a `no-speech` error event is always
fatal regardless of the accumulated transcript; the non-empty-transcript
fallback lives in the `onend` handler, which resolves with the trimmed
transcript when non-empty and fails with the no-speech error only when the
transcript is empty (the earlier revision's `onerror` handler did resolve
a non-empty transcript on `no-speech`, as the spec describes). -/
theorem browser_noSpeech_handling (transcript language : String) :
    exceptIsOk (browserOnError transcript "no-speech") = false ∧
    (jsTrim transcript ≠ "" →
      browserOnEnd transcript language =
        .ok { text := jsTrim transcript, language := jsSplitFirst language '-' }) ∧
    (jsTrim transcript = "" →
      browserOnEnd transcript language =
        .error "No speech detected in the audio segment") ∧
    (jsTrim transcript ≠ "" →
      browserOnErrorLegacy transcript "no-speech" = .ok (jsTrim transcript)) := by
  refine ⟨rfl, fun h => ?_, fun h => ?_, fun h => ?_⟩
  · rw [browserOnEnd, if_pos h]
  · rw [browserOnEnd, if_neg (by simp [h])]
  · rw [browserOnErrorLegacy, if_neg (by simp), if_pos h]

/-- Witness for C6 (amended): concrete transcript `"Hola "`. -/
theorem browser_noSpeech_handling_witness :
    exceptIsOk (browserOnError "Hola " "no-speech") = false ∧
    browserOnEnd "Hola " "es-ES" =
      .ok { text := jsTrim "Hola ", language := jsSplitFirst "es-ES" '-' } :=
  ⟨(browser_noSpeech_handling "Hola " "es-ES").1,
   (browser_noSpeech_handling "Hola " "es-ES").2.1 (by decide)⟩

/-! ## Claim C5 — remote language-code determination -/

/-- C5: on every successful self-hosted transcription, a JSON language name
is mapped through the fixed `whisperLanguageToISO` table (names like
`'english'`/`'spanish'`/`'polish'` become `'en'`/`'es'`/`'pl'`), a name
outside the table passes through unchanged without failing the operation,
a JSON body without a language field falls back to the hint or `'auto'`,
and a plain-text body falls back to the caller-supplied hint or
`'auto'`. -/
theorem selfHosted_language_resolution
    (language apiUrl name t body : String) (status : Nat) (statusText errorText : String)
    (hurl : apiUrl ≠ "") :
    (name ≠ "" → jsTrim t ≠ "" →
      transcribeWithSelfHostedWhisper language apiUrl
          (.response true status statusText errorText (.jsonPayload (some t) (some name))) =
        .ok { text := jsTrim t, language := whisperLanguageToISO name }) ∧
    (whisperLanguageToISO "english" = "en" ∧ whisperLanguageToISO "spanish" = "es" ∧
      whisperLanguageToISO "polish" = "pl") ∧
    (name ≠ "" → jsTrim (jsToLower name) ∉ whisperLanguageMap.map Prod.fst →
      whisperLanguageToISO name = name) ∧
    (jsTrim t ≠ "" →
      transcribeWithSelfHostedWhisper language apiUrl
          (.response true status statusText errorText (.jsonPayload (some t) none)) =
        .ok { text := jsTrim t, language := if language = "" then "auto" else language }) ∧
    (jsTrim body ≠ "" →
      transcribeWithSelfHostedWhisper language apiUrl
          (.response true status statusText errorText (.textPayload body)) =
        .ok { text := jsTrim body,
              language := if language ≠ "" ∧ language ≠ "auto" then language else "auto" }) := by
  have hne : ∀ {x : String}, jsTrim x ≠ "" → x ≠ "" := by
    intro x hx he
    exact hx (by rw [he]; rfl)
  refine ⟨fun hn ht => ?_, ⟨by decide, by decide, by decide⟩, fun hn hmem => ?_,
    fun ht => ?_, fun hb => ?_⟩
  · simp [transcribeWithSelfHostedWhisper, hurl, jsTruthyOpt, hn, ht, hne ht]
  · have hlk : List.lookup (jsTrim (jsToLower name)) whisperLanguageMap = none :=
      lookup_eq_none_of_not_mem_keys _ _ hmem
    simp [whisperLanguageToISO, hlk, hn]
  · simp [transcribeWithSelfHostedWhisper, hurl, jsTruthyOpt, ht, hne ht]
  · simp [transcribeWithSelfHostedWhisper, hurl, hb, hne hb]

/-- Witness for C5: the spec scenarios — JSON `{text: 'Hola', language:
'spanish'}` yields `{Hola, es}`, a plain-text `'hello'` with hint `'es'`
yields `{hello, es}`, and the unmapped name `'klingon'` passes through. -/
theorem selfHosted_language_resolution_witness :
    transcribeWithSelfHostedWhisper "auto" "http://localhost:9001"
        (.response true 200 "OK" "" (.jsonPayload (some "Hola") (some "spanish"))) =
      .ok { text := "Hola", language := "es" } ∧
    transcribeWithSelfHostedWhisper "es" "http://localhost:9001"
        (.response true 200 "OK" "" (.textPayload "hello")) =
      .ok { text := "hello", language := "es" } ∧
    whisperLanguageToISO "klingon" = "klingon" := by
  refine ⟨?_, ?_, ?_⟩
  · exact (selfHosted_language_resolution "auto" "http://localhost:9001" "spanish" "Hola"
      "" 200 "OK" "" (by decide)).1 (by decide) (by decide)
  · exact (selfHosted_language_resolution "es" "http://localhost:9001" "x" "x"
      "hello" 200 "OK" "" (by decide)).2.2.2.2 (by decide)
  · exact (selfHosted_language_resolution "es" "http://localhost:9001" "klingon" "x"
      "" 200 "OK" "" (by decide)).2.2.1 (by decide) (by decide)

/-! ## Claim C4 — remote failure classification -/

/-- C4: remote transcription classifies its failures — a rejected fetch
with the network message `'Failed to fetch'` yields the cannot-connect
error, which differs from every generically wrapped failure; a non-2xx
response yields a remote error carrying the server-provided body when
available and the HTTP status otherwise; and an empty or whitespace-only
transcript (e.g. JSON `{text: ''}`) yields the fatal no-speech error; the
cloud variant likewise surfaces the server message on non-2xx and the
no-speech error on an empty transcript. -/
theorem remote_failure_classification
    (language apiUrl : String) (status : Nat) (statusText errorText : String)
    (payload : WhisperPayload) (apiKey m t : String)
    (textOpt rlang : Option String)
    (hurl : apiUrl ≠ "") (hkey : apiKey ≠ "") :
    (transcribeWithSelfHostedWhisper language apiUrl (.fetchRejected "Failed to fetch") =
      .error ("Cannot connect to self-hosted Whisper API at " ++ stripTrailingSlash apiUrl ++
        ". Make sure the service is running and accessible.")) ∧
    (∀ msg, ("Cannot connect to self-hosted Whisper API at " ++ stripTrailingSlash apiUrl ++
        ". Make sure the service is running and accessible.") ≠
      ("Self-hosted Whisper transcription failed: " ++ msg)) ∧
    (errorText ≠ "" →
      jsIncludes ("Self-hosted Whisper API error: " ++ errorText) "Failed to fetch" = false →
      transcribeWithSelfHostedWhisper language apiUrl
          (.response false status statusText errorText payload) =
        .error ("Self-hosted Whisper transcription failed: " ++
          ("Self-hosted Whisper API error: " ++ errorText))) ∧
    (jsIncludes ("Self-hosted Whisper API error: " ++
        ("HTTP " ++ toString status ++ ": " ++ statusText)) "Failed to fetch" = false →
      transcribeWithSelfHostedWhisper language apiUrl
          (.response false status statusText "" payload) =
        .error ("Self-hosted Whisper transcription failed: " ++
          ("Self-hosted Whisper API error: " ++
            ("HTTP " ++ toString status ++ ": " ++ statusText)))) ∧
    (jsTrim t = "" →
      transcribeWithSelfHostedWhisper language apiUrl
          (.response true status statusText errorText (.jsonPayload (some t) (some "english"))) =
        .error "Self-hosted Whisper transcription failed: No speech detected in the audio segment") ∧
    (m ≠ "" →
      transcribeWithWhisper language apiKey
          (.response false status statusText (some m) textOpt rlang) =
        .error ("Whisper transcription failed: " ++ ("Whisper API error: " ++ m))) ∧
    (jsTrim t = "" →
      transcribeWithWhisper language apiKey
          (.response true status statusText none (some t) rlang) =
        .error "Whisper transcription failed: No speech detected in the audio segment") := by
  refine ⟨?_, ?_, fun he hni => ?_, fun hni => ?_, fun ht => ?_, fun hm => ?_, fun ht => ?_⟩
  · simp [transcribeWithSelfHostedWhisper, hurl,
      (by decide : jsIncludes "Failed to fetch" "Failed to fetch" = true)]
  · intro msg he
    have h3 : ("Cannot connect to self-hosted Whisper API at " ++ stripTrailingSlash apiUrl ++
        ". Make sure the service is running and accessible.").data.head? = some 'C' := by
      rw [String.data_append, String.data_append]
      rfl
    have h4 : ("Self-hosted Whisper transcription failed: " ++ msg).data.head? = some 'S' := by
      rw [String.data_append]
      rfl
    have h5 := congrArg (fun s => s.data.head?) he
    simp only [] at h5
    rw [h3, h4] at h5
    exact absurd h5 (by decide)
  · simp only [transcribeWithSelfHostedWhisper, if_neg hurl]
    simp [he, hni]
  · simp only [transcribeWithSelfHostedWhisper, if_neg hurl]
    simp [hni]
  · simp only [transcribeWithSelfHostedWhisper, if_neg hurl]
    simp [ht, (by decide :
      jsIncludes "No speech detected in the audio segment" "Failed to fetch" = false)]
  · simp only [transcribeWithWhisper, if_neg hkey]
    simp [jsTruthyOpt, hm]
  · simp only [transcribeWithWhisper, if_neg hkey]
    simp [ht]

/-- Witness for C4: a rejected fetch, the spec's empty-JSON-transcript
scenario, and a cloud 500 with a server message. -/
theorem remote_failure_classification_witness :
    transcribeWithSelfHostedWhisper "es" "http://localhost:9001/" (.fetchRejected "Failed to fetch") =
      .error ("Cannot connect to self-hosted Whisper API at " ++
        stripTrailingSlash "http://localhost:9001/" ++
        ". Make sure the service is running and accessible.") ∧
    transcribeWithSelfHostedWhisper "auto" "http://localhost:9001"
        (.response true 200 "OK" "" (.jsonPayload (some "") (some "english"))) =
      .error "Self-hosted Whisper transcription failed: No speech detected in the audio segment" ∧
    transcribeWithWhisper "es" "sk-test" (.response false 500 "Internal Server Error"
        (some "Server error") none none) =
      .error ("Whisper transcription failed: " ++ ("Whisper API error: " ++ "Server error")) := by
  refine ⟨?_, ?_, ?_⟩
  · exact (remote_failure_classification "es" "http://localhost:9001/" 200 "OK" ""
      (.textPayload "") "sk-test" "m" "t" none none (by decide) (by decide)).1
  · exact (remote_failure_classification "auto" "http://localhost:9001" 200 "OK" ""
      (.textPayload "") "sk-test" "m" "" none none (by decide) (by decide)).2.2.2.2.1 (by decide)
  · exact (remote_failure_classification "es" "http://localhost:9001" 500 "Internal Server Error" ""
      (.textPayload "") "sk-test" "Server error" "t" none none (by decide)
      (by decide)).2.2.2.2.2.1 (by decide)

/-! ## Claim C1 — position handling in rewind-and-translate (corrected) -/

/-- C1 counterexample: entering at position 25 while playing, a successful
cycle ends at position 10 (the segment start), not the recorded 25; and a
failing cycle whose capture left the element at position 13 ends at 13 and
paused — the original position is not restored and playback is not
resumed. -/
theorem rewindAndTranslate_position_counterexample :
    (rewindAndTranslate (fun s => (s, .ok ())) (.ok ()) 15 ⟨25, false⟩).currentTime = 10 ∧
    ((10 : ℚ) ≠ 25) ∧
    rewindAndTranslate
        (fun _ => (⟨13, true⟩, .error "Cannot connect to self-hosted Whisper API")) (.ok ())
        15 ⟨25, false⟩ = ⟨13, true⟩ ∧
    ((13 : ℚ) ≠ 25) := by
  refine ⟨?_, by norm_num, rfl, by norm_num⟩
  have h : (rewindAndTranslate (fun s => (s, .ok ())) (.ok ()) 15 ⟨25, false⟩).currentTime =
      max 0 ((25 : ℚ) - 15) := rfl
  rw [h]
  norm_num

/-- C1 amended: on a successful cycle the final position is the captured
window's start, `max(0, p - w)`, and playback resumes exactly when it was
playing at entry; on a pipeline failure the element is left exactly as the
failing pipeline left it (no position restore, no resume); on a speech
failure the element stays at the window start. -/
theorem rewindAndTranslate_behavior
    (pipeline : AudioState → AudioState × Except String Unit)
    (speakResult : Except String Unit) (w : ℚ) (s0 s2 : AudioState) :
    (pipeline { s0 with paused := true } = (s2, .ok ()) → speakResult = .ok () →
      rewindAndTranslate pipeline speakResult w s0 =
        if s0.paused then { s2 with currentTime := max 0 (s0.currentTime - w) }
        else { currentTime := max 0 (s0.currentTime - w), paused := false }) ∧
    (∀ e, pipeline { s0 with paused := true } = (s2, .error e) →
      rewindAndTranslate pipeline speakResult w s0 = s2) ∧
    (∀ e, pipeline { s0 with paused := true } = (s2, .ok ()) → speakResult = .error e →
      rewindAndTranslate pipeline speakResult w s0 =
        { s2 with currentTime := max 0 (s0.currentTime - w) }) := by
  refine ⟨fun hp hs => ?_, fun e hp => ?_, fun e hp hs => ?_⟩
  · simp only [rewindAndTranslate, extractAudioSegment, hp, hs]
    cases hb : s0.paused <;> simp [hb]
  · simp only [rewindAndTranslate, hp]
  · simp only [rewindAndTranslate, extractAudioSegment, hp, hs]

/-- Witness for C1 (amended): the success path from position 25 while
playing ends at the window start `max(0, 25 - 15)` with playback
resumed. -/
theorem rewindAndTranslate_behavior_witness :
    rewindAndTranslate (fun s => (s, .ok ())) (.ok ()) 15 ⟨25, false⟩ =
      { currentTime := max 0 ((25 : ℚ) - 15), paused := false } := by
  have h := (rewindAndTranslate_behavior (fun s => (s, .ok ())) (.ok ()) 15
    ⟨25, false⟩ ⟨25, true⟩).1 rfl rfl
  simpa using h
